import Mathlib

/-!
# Verification of the authentication bridge

Shallow embedding of the authentication bridge of this repository:
the server resolver (`src/pages/api/erpnext/auth.js`) and the client
auth context (`src/components/AuthContext.js`).

Modelling conventions, used uniformly below:

* JavaScript string-or-null/undefined values are `Option String`; JS
  truthiness tests (`if (x)`) become `jsTruthy`, under which both the
  absent value and the empty string are falsy, exactly as in JS.
* Every outbound network call of the resolver is an oracle function in a
  `World` record (the ERP directory and the Novu notification service),
  and the resolver additionally returns the list of outbound calls it
  made (`Effect`), so that "no call to X was made" is a statement about
  that list.
* `Buffer.from(..).toString('base64')` and `btoa(..)` are injective
  encodings whose output is never inspected by any code in this
  repository; they are modelled by the identity on the encoded payload.
* The browser `localStorage` is a record with one `Option` field per key
  that the bridge ever touches; the serialized session user is stored in
  parsed form (`Option UserData`): `JSON.parse ∘ JSON.stringify` is the
  identity on the values this code stores, and a stored-user JSON string
  is never empty, so its JS truthiness coincides with presence.
-/

/-- JS truthiness of a string-or-null value: `null`/`undefined` and the
empty string are falsy. -/
def jsTruthy : Option String → Bool
  | none => false
  | some s => !(s.data.isEmpty)

/-- JS `a || b` on two strings (first operand kept when truthy). -/
def jsOrS (a b : String) : String :=
  if a.data.isEmpty then b else a

/-- JS `a || b` on two string-or-null values. -/
def jsOr (a b : Option String) : Option String :=
  if jsTruthy a then a else b

/-- JS `a || d` with a string default: yields the default on a falsy
first operand. -/
def jsOrD (a : Option String) (d : String) : String :=
  match a with
  | none => d
  | some s => if s.data.isEmpty then d else s

/-- JS `a || null`: collapses a falsy value to null. -/
def jsOrNull (a : Option String) : Option String :=
  if jsTruthy a then a else none

/-- JS `String(x)` coercion used implicitly by `localStorage.setItem`
when handed a possibly-undefined value. -/
def jsToStr : Option String → String
  | none => "undefined"
  | some s => s

/-- The characters matched by the JS regex class `\s` (the ones relevant
to phone-number strings). -/
def isWsChar (c : Char) : Bool :=
  c = ' ' || c = '\t' || c = '\n' || c = '\r'

/-- Strip a fixed prefix from a character list when present, otherwise
return the list unchanged (the effect of `String.replace(/^pat/, '')`
for a literal pattern `pat`). -/
def dropPre (p cs : List Char) : List Char :=
  if p.isPrefixOf cs then cs.drop p.length else cs

/-- Core of the client's `cleanPhoneNumber` (AuthContext.js 63-78) on
character lists: strip a leading `+91`, strip a remaining leading `+`,
delete all whitespace, then strip a leading bare `91` when more than 10
characters remain. -/
def cleanPhoneCore (cs : List Char) : List Char :=
  let s1 := dropPre ['+', '9', '1'] cs
  let s2 := dropPre ['+'] s1
  let s3 := s2.filter (fun c => !isWsChar c)
  if ['9', '1'].isPrefixOf s3 ∧ s3.length > 10 then s3.drop 2 else s3

/-- Client-side `cleanPhoneNumber` (AuthContext.js 63-78): returns null
on a falsy input, otherwise the cleaned number. -/
def cleanPhoneNumber (s : String) : Option String :=
  if s.data.isEmpty then none else some ⟨cleanPhoneCore s.data⟩

/-- Server-side phone normalization (auth.js 104):
`phoneNumber.replace(/^\+91/, '').replace(/^\+/, '')` — prefix
stripping only, no whitespace handling and no bare-`91` stripping. -/
def serverCleanPhone (s : String) : String :=
  ⟨dropPre ['+'] (dropPre ['+', '9', '1'] s.data)⟩

/-- Modelled from the spec (for comparison with the code in claim C9):
"the input with a leading `+91` country-calling-code prefix removed, any
remaining leading `+` removed, and whitespace removed, and no other
change to the digits". -/
def specPhoneNormalize (s : String) : String :=
  ⟨(dropPre ['+'] (dropPre ['+', '9', '1'] s.data)).filter (fun c => !isWsChar c)⟩

/-! ## Server resolver: data model (auth.js) -/

/-- The fields of an ERP `Employee` resource that the resolver reads. -/
structure Employee where
  name : String
  first_name : Option String := none
  employee_name : Option String := none
  cell_number : Option String := none
  fsl_whatsapp_number : Option String := none
  company_email : Option String := none
  kly_role_id : Option String := none
  status : String := "Active"
  department : Option String := none
  designation : Option String := none
  date_of_joining : Option String := none
  date_of_birth : Option String := none
deriving DecidableEq, Repr

/-- The nested `customProperties` bag built by the resolver
(auth.js 249-258 / 325-334). -/
structure CustomProps where
  organization : String
  accessLevel : String
  provider : String
  employeeId : String
  department : Option String
  designation : Option String
  dateOfJoining : Option String
  dateOfBirth : Option String
deriving DecidableEq, Repr

/-- The Session User object returned by the resolver (auth.js 240-260 /
316-336).  `email` is optional because the email-path copies the raw
`company_email` field. -/
structure UserData where
  uid : String
  email : Option String
  phoneNumber : Option String
  displayName : String
  role : String
  roleName : String
  kly_role_id : Option String
  authProvider : String
  customProperties : CustomProps
  employeeData : Option Employee := none
deriving DecidableEq, Repr

/-- The JSON request body of the resolver endpoint (auth.js 68). -/
structure Req where
  email : Option String := none
  phoneNumber : Option String := none
  authProvider : Option String := none
  oneSignalPlayerId : Option String := none
  oneSignalSubscriptionId : Option String := none
deriving DecidableEq, Repr

/-- Environment configuration read by the resolver (auth.js 76-78,
381, 405).  The two `|| NEXT_PUBLIC_` fallback chains for the Novu
values are folded into single fields. -/
structure Env where
  erpnextUrl : Option String := none
  erpnextApiKey : Option String := none
  erpnextApiSecret : Option String := none
  novuSecretKey : Option String := none
  novuIntegrationIdentifier : Option String := none
deriving DecidableEq, Repr

/-- Result of one Novu HTTP call as the code branches on it. -/
inductive NovuHttp
  | ok
  | conflict409
  | errorStatus (code : Nat)
  | exn
deriving DecidableEq, Repr

/-- Oracle for the Novu service's answers to the three synchronization
calls. -/
structure NovuWorld where
  createRes : NovuHttp
  updateRes : NovuHttp
  credUpdateThrows : Bool
deriving DecidableEq, Repr

/-- Oracle for the ERP directory.  `none` on `searchByCell` is a failed
HTTP response (`!response.ok`).  On `fetchById` and `searchByEmail`,
a failed HTTP response and an ok response without data leave `userData`
null on the same path in the source, so both are folded into `none` /
the empty list. -/
structure ErpWorld where
  searchByCell : String → Option (List Employee)
  fetchById : String → Option Employee
  searchByEmail : String → Option (List Employee)

/-- All external services the resolver talks to. -/
structure World where
  erp : ErpWorld
  novu : NovuWorld

/-- How the create call's three-way branch classifies its response
(auth.js 32-39): ok ⇒ created, 409 ⇒ already exists (proceed), other ⇒
failure (logged, swallowed). -/
inductive CreateOutcome
  | created
  | alreadyExists
  | failed
deriving DecidableEq, Repr

/-- One outbound call made by the resolver. -/
inductive Effect
  | erpPhoneSearch (cell : String)
  | erpFetchById (id : String)
  | erpEmailSearch (em : String)
  | novuCreateReq (outcome : CreateOutcome)
  | novuUpdateReq (ok : Bool)
  | novuCredUpdate (ok : Bool)
deriving DecidableEq, Repr

/-- The resolver's HTTP response, by shape of the JSON body.
`accessDenied` carries the human message and the machine-readable
`details.userSource` reason tag. -/
inductive AuthResponse
  | methodNotAllowed
  | badRequest (error : String)
  | configError (error : String)
  | accessDenied (message : String) (reasonUserSource : String)
  | ok (user : UserData) (token : String) (userSource : String)
  | serverError (details : String)
deriving DecidableEq, Repr

/-- HTTP status code of a response. -/
def AuthResponse.statusCode : AuthResponse → Nat
  | .methodNotAllowed => 405
  | .badRequest _ => 400
  | .configError _ => 500
  | .accessDenied _ _ => 403
  | .ok _ _ _ => 200
  | .serverError _ => 500

/-- Session token minting (auth.js 365):
`Buffer.from(uid + ":" + Date.now()).toString('base64')`; the base64
wrapper is an injective encoding never inspected, modelled away. -/
def mintToken (uid : String) (now : Nat) : String :=
  uid ++ ":" ++ toString now

/-- Session User built on the phone path after the fetch by identifier
(auth.js 240-260). -/
def buildUserFromId (e : Employee) (reqProvider : Option String) : UserData :=
  { uid := e.name
    email := some (jsOrD e.company_email (e.name ++ "@elbrit.org"))
    phoneNumber := jsOr e.cell_number e.fsl_whatsapp_number
    displayName := jsOrD (jsOr e.first_name e.employee_name) "User"
    role := "admin"
    roleName := "Admin"
    kly_role_id := jsOrNull e.kly_role_id
    authProvider := jsOrD reqProvider "phone"
    customProperties :=
      { organization := "Elbrit Life Sciences"
        accessLevel := "full"
        provider := jsOrD reqProvider "phone"
        employeeId := e.name
        department := e.department
        designation := e.designation
        dateOfJoining := e.date_of_joining
        dateOfBirth := e.date_of_birth }
    employeeData := some e }

/-- The local part of an email address (`s.split('@')[0]`). -/
def emailLocalPart (s : String) : String :=
  ⟨s.data.takeWhile (fun c => c ≠ '@')⟩

/-- Session User built on the email path (auth.js 316-336). -/
def buildUserFromEmail (e : Employee) (reqProvider : Option String) : UserData :=
  { uid := e.name
    email := e.company_email
    phoneNumber := jsOr e.cell_number e.fsl_whatsapp_number
    displayName :=
      jsOrD (jsOr (jsOr e.first_name e.employee_name)
        (e.company_email.map emailLocalPart)) "User"
    role := "admin"
    roleName := "Admin"
    kly_role_id := jsOrNull e.kly_role_id
    authProvider := jsOrD reqProvider "microsoft"
    customProperties :=
      { organization := "Elbrit Life Sciences"
        accessLevel := "full"
        provider := jsOrD reqProvider "microsoft"
        employeeId := e.name
        department := e.department
        designation := e.designation
        dateOfJoining := e.date_of_joining
        dateOfBirth := e.date_of_birth }
    employeeData := some e }

/-- Phone-search phase of the resolver (auth.js 100-193): entered only
for a truthy phone with a falsy email; either replies early with an
access denial or yields the matched record's identifier for the direct
follow-up fetch. -/
def phonePhase (req : Req) (erp : ErpWorld) :
    (AuthResponse × List Effect) ⊕ (Option String × List Effect) :=
  if jsTruthy req.phoneNumber ∧ ¬ jsTruthy req.email then
    let cleaned := serverCleanPhone (jsToStr req.phoneNumber)
    match erp.searchByCell cleaned with
    | none =>
        .inl (.accessDenied
          "Unable to verify phone number. Please contact your administrator."
          "phone_search_failed", [.erpPhoneSearch cleaned])
    | some [] =>
        .inl (.accessDenied
          "Phone number not found in organization. Please contact your administrator."
          "phone_not_found", [.erpPhoneSearch cleaned])
    | some (e :: _) =>
        if e.status ≠ "Active" then
          .inl (.accessDenied
            "Your account is not active. Please contact your administrator."
            "phone_inactive", [.erpPhoneSearch cleaned])
        else
          .inr (some e.name, [.erpPhoneSearch cleaned])
  else
    .inr (none, [])

/-- Record-resolution phase (auth.js 195-345): fetch by identifier when
the phone phase produced one, else search by company email; re-checks
Active status on the resolved record. -/
def resolvePhase (req : Req) (erp : ErpWorld) (idFromPhone : Option String) :
    (AuthResponse × List Effect) ⊕ (Option (UserData × String) × List Effect) :=
  match idFromPhone with
  | some id =>
    match erp.fetchById id with
    | some e =>
        if e.status ≠ "Active" then
          .inl (.accessDenied
            "Your account is not active. Please contact your administrator."
            "employee_inactive", [.erpFetchById id])
        else
          .inr (some (buildUserFromId e req.authProvider, "employee_by_id"),
            [.erpFetchById id])
    | none => .inr (none, [.erpFetchById id])
  | none =>
    if jsTruthy req.email then
      let sv := jsToStr req.email
      match erp.searchByEmail sv with
      | some (e :: _) =>
          if e.status ≠ "Active" then
            .inl (.accessDenied
              "Your account is not active. Please contact your administrator."
              "employee_inactive", [.erpEmailSearch sv])
          else
            .inr (some (buildUserFromEmail e req.authProvider, "employee_by_email"),
              [.erpEmailSearch sv])
      | some [] => .inr (none, [.erpEmailSearch sv])
      | none => .inr (none, [.erpEmailSearch sv])
    else
      .inr (none, [])

/-- `createOrUpdateNovuSubscriber` (auth.js 4-61): guard on subscriber
id and secret key, then a create call whose 409 answer is logged as
"already exists" and not treated as a failure, then an unconditional
update call; every failure is caught locally. -/
def createOrUpdateNovuSubscriber (subscriberId : String)
    (novuSecretKey : Option String) (nw : NovuWorld) : List Effect :=
  if ¬ jsTruthy (some subscriberId) ∨ ¬ jsTruthy novuSecretKey then
    []
  else
    [ .novuCreateReq
        (match nw.createRes with
          | .ok => .created
          | .conflict409 => .alreadyExists
          | _ => .failed)
    , .novuUpdateReq (nw.updateRes = .ok) ]

/-- The subscriber-id chain
`userData?.customProperties?.employeeId || userData?.uid ||
userData?.employeeData?.name || null` (auth.js 376). -/
def employeeIdOf (u : UserData) : Option String :=
  jsOrNull (jsOr (some u.customProperties.employeeId)
    (jsOr (some u.uid) (u.employeeData.map Employee.name)))

/-- Novu synchronization block of the handler (auth.js 378-446): runs
only when an employee id was resolved and a secret key is configured;
attaches device-token credentials only when a player id was supplied;
the whole block is wrapped in a catch that swallows every error. -/
def novuPhase (u : UserData) (req : Req) (env : Env) (nw : NovuWorld) :
    List Effect :=
  match employeeIdOf u with
  | none => []
  | some eid =>
    if jsTruthy env.novuSecretKey then
      let effs := createOrUpdateNovuSubscriber eid env.novuSecretKey nw
      if jsTruthy req.oneSignalPlayerId then
        effs ++ [.novuCredUpdate (!nw.credUpdateThrows)]
      else
        effs
    else
      []

/-- The resolver endpoint handler (auth.js 63-462), returning the
response together with the list of outbound calls it made. -/
def handler (method : String) (req : Req) (env : Env) (w : World)
    (now : Nat) : AuthResponse × List Effect :=
  if method ≠ "POST" then
    (.methodNotAllowed, [])
  else if ¬ jsTruthy req.email ∧ ¬ jsTruthy req.phoneNumber then
    (.badRequest "Email or phone number is required", [])
  else if ¬ (jsTruthy env.erpnextUrl ∧ jsTruthy env.erpnextApiKey ∧
      jsTruthy env.erpnextApiSecret) then
    (.configError "ERPNext configuration missing", [])
  else
    match phonePhase req w.erp with
    | .inl r => r
    | .inr (idFromPhone, effs1) =>
      match resolvePhase req w.erp idFromPhone with
      | .inl (resp, effs2) => (resp, effs1 ++ effs2)
      | .inr (none, effs2) =>
          (.accessDenied
            "User not found in organization. Please contact your administrator."
            "not_found", effs1 ++ effs2)
      | .inr (some (userData, userSource), effs2) =>
          let token := mintToken userData.uid now
          let effs3 := novuPhase userData req env w.novu
          (.ok userData token userSource, effs1 ++ effs2 ++ effs3)

/-! ## Client auth context: data model (AuthContext.js) -/

/-- Browser `localStorage`, one optional field per key the auth context
ever reads or writes.  The serialized session user is kept in parsed
form (see the header comment). -/
structure Storage where
  erpnextAuthToken : Option String := none
  erpnextUser : Option UserData := none
  userPhoneNumber : Option String := none
  authProvider : Option String := none
  authType : Option String := none
  authMethod : Option String := none
  userEmail : Option String := none
  userDisplayName : Option String := none
  userRole : Option String := none
  userAvatar : Option String := none
  userInitial : Option String := none
  employeeId : Option String := none
  klyRoleId : Option String := none
  employeeData : Option String := none
  phoneUserData : Option String := none
deriving DecidableEq, Repr

/-- The React state variables of the auth context (AuthContext.js
50-56); `isAuthenticated` is the state variable of that name, while the
exposed flag is derived (line 601). -/
structure ClientMem where
  user : Option UserData := none
  token : Option String := none
  isAuthenticated : Bool := false
  phoneNumber : Option String := none
  authProvider : Option String := none
deriving DecidableEq, Repr

/-- In-memory state plus persistent storage of the client. -/
structure ClientFull where
  mem : ClientMem
  storage : Storage
deriving DecidableEq, Repr

/-- The exposed `isAuthenticated` flag (AuthContext.js 601):
`!!user && !!token`. -/
def isAuthenticatedExposed (m : ClientMem) : Bool :=
  m.user.isSome && m.token.isSome

/-- Identity principal as reported by the provider SDK: the fields the
auth context reads. `providerData` is the list of provider ids. -/
structure FirebaseUser where
  email : Option String := none
  phoneNumber : Option String := none
  providerData : List String := []
deriving DecidableEq, Repr

/-- `getAuthProvider` (AuthContext.js 81-100): phone number present ⇒
"phone"; else first provider id "microsoft.com" ⇒ "microsoft"; else
"email". -/
def getAuthProvider (fu : FirebaseUser) : String :=
  if jsTruthy fu.phoneNumber then "phone"
  else
    match fu.providerData with
    | p :: _ => if p = "microsoft.com" then "microsoft" else "email"
    | [] => "email"

/-- `loadAuthFromStorage` (AuthContext.js 121-175): restores the
in-memory user/token only when a token, a stored user and the
auth-type marker `erpnext` are all present; restores phone number and
auth-provider tag independently. -/
def loadAuthFromStorage (m : ClientMem) (s : Storage) : ClientMem :=
  let m1 :=
    if jsTruthy s.erpnextAuthToken ∧ s.erpnextUser.isSome ∧
        s.authType = some "erpnext" then
      { m with
        token := s.erpnextAuthToken
        user := s.erpnextUser
        isAuthenticated := true }
    else m
  let m2 :=
    if jsTruthy s.userPhoneNumber then
      { m1 with phoneNumber := s.userPhoneNumber }
    else m1
  if jsTruthy s.authProvider then
    { m2 with authProvider := s.authProvider }
  else m2

/-- The employee-id fallback chain used by `login` and by the
post-success storage writes (AuthContext.js 338 / 560):
`user?.customProperties?.employeeId || user?.uid ||
user?.employeeData?.name || ''`. -/
def loginEmployeeId (u : UserData) : String :=
  jsOrS u.customProperties.employeeId
    (jsOrS u.uid
      (match u.employeeData with
        | some e => jsOrS e.name ""
        | none => ""))

/-- Manual `login(user, token)` (AuthContext.js 554-563): sets the
in-memory pair and persists exactly the token, the serialized user and
the employee identifier. -/
def login (c : ClientFull) (u : UserData) (t : String) : ClientFull :=
  { mem := { c.mem with user := some u, token := some t }
    storage := { c.storage with
      erpnextAuthToken := some t
      erpnextUser := some u
      employeeId := some (loginEmployeeId u) } }

/-- `logout()` (AuthContext.js 565-587), its local-state part after the
provider sign-out call: clears the in-memory fields and removes six
localStorage keys (token, user, phone, provider, employee id, role id);
it does not touch `authType`, `authMethod`, `userAvatar`,
`userInitial`, `userEmail`, `userDisplayName`, `userRole`. -/
def logout (c : ClientFull) : ClientFull :=
  { mem := { c.mem with
      user := none
      token := none
      phoneNumber := none
      authProvider := none }
    storage := { c.storage with
      erpnextAuthToken := none
      erpnextUser := none
      userPhoneNumber := none
      authProvider := none
      employeeId := none
      klyRoleId := none } }

/-- The "signed out" branch of the provider observer (AuthContext.js
500-528): clears memory and removes thirteen keys; `userAvatar` and
`userInitial` are not among them. -/
def processSignedOut (c : ClientFull) : ClientFull :=
  { mem := { user := none
             token := none
             isAuthenticated := false
             phoneNumber := none
             authProvider := none }
    storage := { c.storage with
      erpnextAuthToken := none
      erpnextUser := none
      userPhoneNumber := none
      authProvider := none
      authType := none
      authMethod := none
      userEmail := none
      userDisplayName := none
      userRole := none
      employeeData := none
      phoneUserData := none
      employeeId := none
      klyRoleId := none } }

/-- What an in-flight sign-in transition carries across the suspension
at the resolver call: the determined provider tag and the request
identifiers it sent. -/
structure Pending where
  provider : String
  requestEmail : Option String := none
  requestPhone : Option String := none
deriving DecidableEq, Repr

/-- The part of the "signed in" branch that runs before the resolver
response arrives (AuthContext.js 203-301): determine the provider tag,
persist the cleaned phone number / provider tag, and assemble the
request identifiers with their storage fallbacks. -/
def prefetch (c : ClientFull) (fu : FirebaseUser) : ClientFull × Pending :=
  let provider := getAuthProvider fu
  let c1 := { c with mem := { c.mem with authProvider := some provider } }
  let c2 :=
    if jsTruthy fu.phoneNumber then
      let cleaned := cleanPhoneNumber (jsToStr fu.phoneNumber)
      { c1 with
        mem := { c1.mem with phoneNumber := cleaned }
        storage := { c1.storage with
          userPhoneNumber := cleaned
          authProvider := some provider } }
    else if provider = "microsoft" then
      { c1 with storage := { c1.storage with authProvider := some provider } }
    else c1
  let emailFor :=
    if jsTruthy fu.email then fu.email else jsOrNull c2.storage.userEmail
  let phoneFor :=
    if jsTruthy fu.phoneNumber then fu.phoneNumber
    else jsOrNull c2.storage.userPhoneNumber
  (c2, { provider := provider
         requestEmail := emailFor
         requestPhone := phoneFor })

/-- The resolver response as the client branches on it: `ok` (2xx body),
`denied` (403), another error status, or an exception reaching the
inner catch. -/
inductive ServerResp
  | ok (user : UserData) (token : String)
  | denied
  | errorStatus (code : Nat)
  | exn
deriving DecidableEq, Repr

/-- The avatar color palette (AuthContext.js 21-25). -/
def avatarColors : List String :=
  ["#FF6B6B", "#4ECDC4", "#45B7D1", "#96CEB4", "#FFEAA7",
   "#DDA0DD", "#98D8C8", "#F7DC6F", "#BB8FCE", "#85C1E9",
   "#F8C471", "#82E0AA", "#F1948A", "#85C1E9", "#D7BDE2"]

/-- `generateAvatarSvg` (AuthContext.js 20-37); the random color index
is an explicit parameter and the `btoa` base64 wrapper is modelled
away (see the header comment). -/
def generateAvatarSvg (rnd : Nat) (letter : String) : String :=
  let bg := (avatarColors.get? (rnd % avatarColors.length)).getD "#FF6B6B"
  "data:image/svg+xml;base64," ++
    "<svg width=\"40\" height=\"40\" viewBox=\"0 0 40 40\" " ++
    "xmlns=\"http://www.w3.org/2000/svg\">" ++
    "<circle cx=\"20\" cy=\"20\" r=\"20\" fill=\"" ++ bg ++ "\"/>" ++
    "<text x=\"20\" y=\"26\" font-family=\"Arial, sans-serif\" " ++
    "font-size=\"16\" font-weight=\"bold\" text-anchor=\"middle\" " ++
    "fill=\"white\">" ++ letter ++ "</text></svg>"

/-- The display-initial chain (AuthContext.js 334):
`displayName?.charAt(0)?.toUpperCase() ||
email?.charAt(0)?.toUpperCase() || 'U'`. -/
def firstLetterOf (u : UserData) : String :=
  jsOrS (u.displayName.take 1).toUpper
    (jsOrS ((jsToStr u.email).take 1).toUpper "U")

/-- Completing a sign-in transition on a 2xx resolver response
(AuthContext.js 303-454): set the in-memory pair and write the full set
of localStorage keys; `rnd` is the avatar color draw. -/
def completeOk (c : ClientFull) (p : Pending) (u : UserData) (t : String)
    (rnd : Nat) : ClientFull :=
  let fl := firstLetterOf u
  { mem := { c.mem with
      user := some u
      token := some t
      isAuthenticated := true }
    storage := { c.storage with
      erpnextAuthToken := some t
      erpnextUser := some u
      authType := some "erpnext"
      authProvider := some p.provider
      authMethod := some (if p.provider = "phone" then "phone" else "microsoft")
      employeeId := some (loginEmployeeId u)
      userEmail := some (jsToStr u.email)
      userDisplayName := some u.displayName
      userRole := some u.role
      userPhoneNumber := some (jsOrD u.phoneNumber "")
      userAvatar := some (generateAvatarSvg rnd fl)
      userInitial := some fl
      klyRoleId := some (jsOrD u.kly_role_id "null") } }

/-- Completing a sign-in transition on a non-2xx resolver response
(AuthContext.js 455-475): clear the in-memory pair and remove four
localStorage keys (token, user, employee id, role id) — no others. -/
def completeFail (c : ClientFull) : ClientFull :=
  { mem := { c.mem with
      user := none
      token := none
      isAuthenticated := false }
    storage := { c.storage with
      erpnextAuthToken := none
      erpnextUser := none
      employeeId := none
      klyRoleId := none } }

/-- Completing a sign-in transition through the inner catch
(AuthContext.js 476-499): clear memory and remove thirteen keys. -/
def completeExn (c : ClientFull) : ClientFull :=
  { mem := { c.mem with
      user := none
      token := none
      isAuthenticated := false }
    storage := { c.storage with
      erpnextAuthToken := none
      erpnextUser := none
      authType := none
      authProvider := none
      authMethod := none
      userEmail := none
      userDisplayName := none
      userRole := none
      userPhoneNumber := none
      userAvatar := none
      userInitial := none
      employeeId := none
      klyRoleId := none } }

/-- Full observer state: the client state, the `isProcessingRef` guard,
the in-flight sign-in transition (if any), and the principal whose
sign-in notification was last processed. -/
structure Observer where
  client : ClientFull
  guard : Bool
  pending : Option Pending
  provider : Option FirebaseUser
deriving DecidableEq, Repr

/-- Events driving the client auth context: a provider sign-in/sign-out
notification, the arrival of the resolver response for the in-flight
transition (with the avatar color draw), and the three context
methods callable by the application. -/
inductive Ev
  | notify (fu : Option FirebaseUser)
  | resolve (r : ServerResp) (rnd : Nat)
  | loginEv (u : UserData) (t : String)
  | logoutEv
  | refreshEv
deriving DecidableEq, Repr

/-- One step of the observer.  A notification is dropped outright when
the guard is held (AuthContext.js 191-194); a sign-out notification is
processed atomically (its branch has no suspension point); a sign-in
notification runs `prefetch` and suspends awaiting the resolver; the
response event completes the transition and releases the guard
(AuthContext.js 536-540). -/
def step (o : Observer) : Ev → Observer
  | .notify fu =>
    if o.guard then o
    else
      match fu with
      | none =>
          { client := processSignedOut o.client
            guard := false
            pending := none
            provider := none }
      | some u =>
          let r := prefetch o.client u
          { client := r.1
            guard := true
            pending := some r.2
            provider := some u }
  | .resolve r rnd =>
    match o.pending with
    | none => o
    | some p =>
      let c :=
        match r with
        | .ok u t => completeOk o.client p u t rnd
        | .denied => completeFail o.client
        | .errorStatus _ => completeFail o.client
        | .exn => completeExn o.client
      { o with client := c, guard := false, pending := none }
  | .loginEv u t => { o with client := login o.client u t }
  | .logoutEv => { o with client := logout o.client }
  | .refreshEv =>
      { o with client :=
        { mem := loadAuthFromStorage o.client.mem o.client.storage
          storage := o.client.storage } }

/-- Run the observer over a list of events. -/
def runObs (o : Observer) (evs : List Ev) : Observer :=
  evs.foldl step o

/-- Observer at page load: fresh memory, the persistent storage left by
previous page loads, guard released, nothing in flight, and the
identity provider reporting no signed-in principal. -/
def initObs (s : Storage) : Observer :=
  { client := { mem := {}, storage := s }
    guard := false
    pending := none
    provider := none }

/-- All nine localStorage keys documented by the spec are present. -/
def allNineSet (s : Storage) : Bool :=
  s.erpnextAuthToken.isSome && s.erpnextUser.isSome &&
  s.userPhoneNumber.isSome && s.authProvider.isSome && s.authType.isSome &&
  s.userAvatar.isSome && s.userInitial.isSome && s.employeeId.isSome &&
  s.klyRoleId.isSome

/-- All nine documented localStorage keys are absent. -/
def allNineAbsent (s : Storage) : Bool :=
  s.erpnextAuthToken.isNone && s.erpnextUser.isNone &&
  s.userPhoneNumber.isNone && s.authProvider.isNone && s.authType.isNone &&
  s.userAvatar.isNone && s.userInitial.isNone && s.employeeId.isNone &&
  s.klyRoleId.isNone

/-! ## Concrete fixtures for counterexamples and witnesses -/

/-- A concrete active employee with a cell number and no company
email. -/
def empEx : Employee :=
  { name := "HR-EMP-001"
    first_name := some "Asha"
    cell_number := some "9876543210"
    company_email := none
    kly_role_id := some "KR-7"
    status := "Active"
    department := some "Sales" }

/-- A concrete inactive employee. -/
def empInactive : Employee :=
  { name := "HR-EMP-002"
    first_name := some "Ravi"
    cell_number := some "9000000000"
    status := "Left" }

/-- A concrete Session User, as the resolver would build it from
`empEx` on the phone path. -/
def userEx : UserData := buildUserFromId empEx none

/-- A concrete configured server environment. -/
def envEx : Env :=
  { erpnextUrl := some "https://erp.example.com"
    erpnextApiKey := some "k"
    erpnextApiSecret := some "s"
    novuSecretKey := some "nk"
    novuIntegrationIdentifier := none }

/-- A concrete ERP directory containing exactly `empEx` (reachable by
cell number and by identifier) and `empInactive` (by cell number). -/
def erpEx : ErpWorld :=
  { searchByCell := fun c =>
      if c = "9876543210" then some [empEx]
      else if c = "9000000000" then some [empInactive]
      else some []
    fetchById := fun i => if i = "HR-EMP-001" then some empEx else none
    searchByEmail := fun _ => some [] }

/-- A concrete Novu world in which every call succeeds. -/
def novuEx : NovuWorld :=
  { createRes := .ok, updateRes := .ok, credUpdateThrows := false }

/-- The concrete external world used by witnesses. -/
def worldEx : World := { erp := erpEx, novu := novuEx }

/-- A concrete Microsoft-federated principal. -/
def fuMsEx : FirebaseUser :=
  { email := some "asha@elbrit.org", providerData := ["microsoft.com"] }

/-- A concrete storage snapshot left by an earlier provider-driven
session. -/
def s0ex : Storage :=
  { erpnextAuthToken := some "tok0"
    erpnextUser := some userEx
    authType := some "erpnext" }

/-- The two-event trace of a successful Microsoft sign-in transition:
the provider notification followed by the resolver's 200 response. -/
def evsSuccessEx : List Ev :=
  [Ev.notify (some fuMsEx), Ev.resolve (.ok userEx "tok1") 0]

/-- The observer state with a sign-in transition in flight (guard held,
awaiting the resolver response). -/
def oFlightEx : Observer :=
  step (initObs {}) (Ev.notify (some fuMsEx))

/-! ## Theorems -/

/-- C7: for every request body in which both email and phone number are
(JS-)absent, the resolver returns a 400 response and makes no outbound
call at all — in particular no directory lookup. -/
theorem c7_no_contact_means_400_no_lookup (req : Req) (env : Env)
    (w : World) (now : Nat)
    (he : jsTruthy req.email = false)
    (hp : jsTruthy req.phoneNumber = false) :
    handler "POST" req env w now =
      (.badRequest "Email or phone number is required", []) := by
  simp [handler, he, hp]

/-- Witness for C7 at the concrete empty request body. -/
theorem c7_witness :
    jsTruthy (Req.email {}) = false ∧
    jsTruthy (Req.phoneNumber {}) = false ∧
    handler "POST" {} envEx worldEx 0 =
      (.badRequest "Email or phone number is required", []) :=
  ⟨rfl, rfl, c7_no_contact_means_400_no_lookup {} envEx worldEx 0 rfl rfl⟩

/-- C5: for every phone-only input whose directory search matches a
record whose status is not "Active", the resolver replies 403 with the
machine-readable reason tag `phone_inactive` (no Session User in the
body, by the shape of `AuthResponse.accessDenied`), and its only
outbound call is the phone search — the fetch by identifier is never
attempted. -/
theorem c5_inactive_phone_403_before_fetch (req : Req) (env : Env)
    (w : World) (now : Nat) (e : Employee) (rest : List Employee)
    (henv : jsTruthy env.erpnextUrl = true ∧
      jsTruthy env.erpnextApiKey = true ∧ jsTruthy env.erpnextApiSecret = true)
    (he : jsTruthy req.email = false)
    (hp : jsTruthy req.phoneNumber = true)
    (hs : w.erp.searchByCell (serverCleanPhone (jsToStr req.phoneNumber)) =
      some (e :: rest))
    (hst : e.status ≠ "Active") :
    handler "POST" req env w now =
      (.accessDenied
        "Your account is not active. Please contact your administrator."
        "phone_inactive",
       [.erpPhoneSearch (serverCleanPhone (jsToStr req.phoneNumber))]) ∧
    (∀ id, Effect.erpFetchById id ∉ (handler "POST" req env w now).2) := by
  have h : handler "POST" req env w now =
      (.accessDenied
        "Your account is not active. Please contact your administrator."
        "phone_inactive",
       [.erpPhoneSearch (serverCleanPhone (jsToStr req.phoneNumber))]) := by
    simp [handler, phonePhase, he, hp, henv.1, henv.2.1, henv.2.2, hs, hst]
  refine ⟨h, fun id => ?_⟩
  rw [h]
  simp

/-- Witness for C5: the inactive employee `empInactive`, looked up by
its phone number. -/
theorem c5_witness :
    (jsTruthy envEx.erpnextUrl = true ∧ jsTruthy envEx.erpnextApiKey = true ∧
      jsTruthy envEx.erpnextApiSecret = true) ∧
    jsTruthy (Req.email { phoneNumber := some "+919000000000" }) = false ∧
    jsTruthy (Req.phoneNumber { phoneNumber := some "+919000000000" }) = true ∧
    handler "POST" { phoneNumber := some "+919000000000" } envEx worldEx 5 =
      (.accessDenied
        "Your account is not active. Please contact your administrator."
        "phone_inactive", [.erpPhoneSearch "9000000000"]) :=
  ⟨⟨rfl, rfl, rfl⟩, rfl, rfl, by
    have h := c5_inactive_phone_403_before_fetch
      { phoneNumber := some "+919000000000" } envEx worldEx 5 empInactive []
      ⟨rfl, rfl, rfl⟩ rfl rfl (by decide) (by decide)
    simpa using h.1⟩

/-- C6 counterexample: on a phone-only input with no directory match the
resolver's machine-readable reason tag is the string `phone_not_found`,
not `not found` (nor the `not_found` tag, which the email path uses) —
so the claim's quoted reason is wrong for the phone path. -/
theorem c6_counterexample :
    (handler "POST" { phoneNumber := some "+911111111111" } envEx worldEx 0).1 =
      .accessDenied
        "Phone number not found in organization. Please contact your administrator."
        "phone_not_found" ∧
    ("phone_not_found" : String) ≠ "not found" ∧
    ("phone_not_found" : String) ≠ "not_found" := by
  refine ⟨by decide, by decide, by decide⟩

/-- C6 as amended: for every phone-only input whose directory search
returns zero matching records, the resolver returns 403 with the
machine-readable reason tag `phone_not_found` (no Session User in the
body), and its only outbound call is the phone search — no ERP fetch by
identifier is attempted. -/
theorem c6_not_found_phone_403_no_fetch (req : Req) (env : Env)
    (w : World) (now : Nat)
    (henv : jsTruthy env.erpnextUrl = true ∧
      jsTruthy env.erpnextApiKey = true ∧ jsTruthy env.erpnextApiSecret = true)
    (he : jsTruthy req.email = false)
    (hp : jsTruthy req.phoneNumber = true)
    (hs : w.erp.searchByCell (serverCleanPhone (jsToStr req.phoneNumber)) =
      some []) :
    handler "POST" req env w now =
      (.accessDenied
        "Phone number not found in organization. Please contact your administrator."
        "phone_not_found",
       [.erpPhoneSearch (serverCleanPhone (jsToStr req.phoneNumber))]) ∧
    (∀ id, Effect.erpFetchById id ∉ (handler "POST" req env w now).2) := by
  have h : handler "POST" req env w now =
      (.accessDenied
        "Phone number not found in organization. Please contact your administrator."
        "phone_not_found",
       [.erpPhoneSearch (serverCleanPhone (jsToStr req.phoneNumber))]) := by
    simp [handler, phonePhase, he, hp, henv.1, henv.2.1, henv.2.2, hs]
  refine ⟨h, fun id => ?_⟩
  rw [h]
  simp

/-- Witness for the amended C6 at a concrete unknown phone number. -/
theorem c6_witness :
    (jsTruthy envEx.erpnextUrl = true ∧ jsTruthy envEx.erpnextApiKey = true ∧
      jsTruthy envEx.erpnextApiSecret = true) ∧
    jsTruthy (Req.email { phoneNumber := some "+911111111111" }) = false ∧
    jsTruthy (Req.phoneNumber { phoneNumber := some "+911111111111" }) = true ∧
    handler "POST" { phoneNumber := some "+911111111111" } envEx worldEx 3 =
      (.accessDenied
        "Phone number not found in organization. Please contact your administrator."
        "phone_not_found", [.erpPhoneSearch "1111111111"]) :=
  ⟨⟨rfl, rfl, rfl⟩, rfl, rfl, by
    have h := c6_not_found_phone_403_no_fetch
      { phoneNumber := some "+911111111111" } envEx worldEx 3
      ⟨rfl, rfl, rfl⟩ rfl rfl (by decide)
    simpa using h.1⟩

/-- C4: for the input `{ phoneNumber: "+919876543210" }`, when the
directory search on the cleaned number `9876543210` yields exactly one
record `e1` that is Active, and the follow-up fetch by `e1`'s
identifier yields the Active record `e2` with no company email, the
resolver returns 200 with provenance `employee_by_id`, user email
synthesized as `e2.name ++ "@elbrit.org"`, and auth-provider tag
`phone`. -/
theorem c4_phone_scenario (env : Env) (w : World) (now : Nat)
    (e1 e2 : Employee)
    (henv : jsTruthy env.erpnextUrl = true ∧
      jsTruthy env.erpnextApiKey = true ∧ jsTruthy env.erpnextApiSecret = true)
    (hs : w.erp.searchByCell "9876543210" = some [e1])
    (h1 : e1.status = "Active")
    (_hc1 : e1.company_email = none)
    (hf : w.erp.fetchById e1.name = some e2)
    (h2 : e2.status = "Active")
    (hce : e2.company_email = none) :
    (handler "POST" { phoneNumber := some "+919876543210" } env w now).1 =
      .ok (buildUserFromId e2 none) (mintToken e2.name now) "employee_by_id" ∧
    (buildUserFromId e2 none).email = some (e2.name ++ "@elbrit.org") ∧
    (buildUserFromId e2 none).authProvider = "phone" ∧
    ((handler "POST" { phoneNumber := some "+919876543210" } env w now).1).statusCode
      = 200 := by
  have hclean : serverCleanPhone
      (jsToStr (Req.phoneNumber { phoneNumber := some "+919876543210" })) =
      "9876543210" := by decide
  have hp : jsTruthy (Req.phoneNumber { phoneNumber := some "+919876543210" })
      = true := rfl
  have he : jsTruthy (Req.email { phoneNumber := some "+919876543210" })
      = false := rfl
  have hmain : (handler "POST" { phoneNumber := some "+919876543210" } env w now).1 =
      .ok (buildUserFromId e2 none) (mintToken e2.name now) "employee_by_id" := by
    simp [handler, phonePhase, resolvePhase, hclean, hp, he,
      henv.1, henv.2.1, henv.2.2, hs, h1, hf, h2, buildUserFromId]
  refine ⟨hmain, ?_, ?_, ?_⟩
  · simp [buildUserFromId, jsOrD, hce]
  · simp [buildUserFromId, jsOrD]
  · rw [hmain]
    rfl

/-- Witness for C4 at the concrete directory `erpEx` holding `empEx`. -/
theorem c4_witness :
    (jsTruthy envEx.erpnextUrl = true ∧ jsTruthy envEx.erpnextApiKey = true ∧
      jsTruthy envEx.erpnextApiSecret = true) ∧
    worldEx.erp.searchByCell "9876543210" = some [empEx] ∧
    empEx.status = "Active" ∧
    worldEx.erp.fetchById empEx.name = some empEx ∧
    empEx.company_email = none ∧
    (handler "POST" { phoneNumber := some "+919876543210" } envEx worldEx 7).1 =
      .ok (buildUserFromId empEx none) (mintToken empEx.name 7) "employee_by_id" ∧
    (buildUserFromId empEx none).email = some "HR-EMP-001@elbrit.org" ∧
    (buildUserFromId empEx none).authProvider = "phone" := by
  have h := c4_phone_scenario envEx worldEx 7 empEx empEx
    ⟨rfl, rfl, rfl⟩ (by decide) rfl rfl (by decide) rfl rfl
  exact ⟨⟨rfl, rfl, rfl⟩, by decide, rfl, by decide, rfl, h.1,
    by simpa using h.2.1, h.2.2.1⟩

/-- C3 part one, as a helper: the response component of the handler does
not depend on the Novu world at all — any outcome of the subscriber
create, subscriber update or device-token credential calls leaves the
response unchanged (in particular a 200 with user and token stays a 200
with the same user and token). -/
theorem handler_resp_novu_independent (method : String) (req : Req)
    (env : Env) (erp : ErpWorld) (nw1 nw2 : NovuWorld) (now : Nat) :
    (handler method req env ⟨erp, nw1⟩ now).1 =
    (handler method req env ⟨erp, nw2⟩ now).1 := by
  simp only [handler]
  split
  · rfl
  split
  · rfl
  split
  · rfl
  rcases hpp : phonePhase req erp with r | ⟨idp, effs1⟩
  · simp
  · simp only
    rcases hrp : resolvePhase req erp idp with ⟨resp, effs2⟩ | ⟨ud, effs2⟩
    · simp
    · rcases ud with _ | ⟨u, src⟩ <;> simp

/-- C3: (a) for every input and every outcome of the notification-
subscriber synchronization calls, the resolver's response is the same —
a failure in subscriber create, subscriber update or device-token
credential update never changes a successful 200 response; and (b) a
create call answered 409 is classified `alreadyExists` (the non-failure
branch of the source's three-way case split), and the update call is
still issued. -/
theorem c3_novu_failures_never_change_response :
    (∀ (method : String) (req : Req) (env : Env) (erp : ErpWorld)
        (nw1 nw2 : NovuWorld) (now : Nat),
      (handler method req env ⟨erp, nw1⟩ now).1 =
      (handler method req env ⟨erp, nw2⟩ now).1) ∧
    (∀ (sid : String) (key : Option String) (nw : NovuWorld),
      jsTruthy (some sid) = true → jsTruthy key = true →
      nw.createRes = .conflict409 →
      createOrUpdateNovuSubscriber sid key nw =
        [.novuCreateReq .alreadyExists, .novuUpdateReq (nw.updateRes = .ok)]) := by
  constructor
  · exact handler_resp_novu_independent
  · intro sid key nw hsid hkey hcr
    simp [createOrUpdateNovuSubscriber, hsid, hkey, hcr]

/-- Witness for C3: a concrete 409-answering Novu world versus an
all-failing one, on the concrete phone sign-in that succeeds. -/
theorem c3_witness :
    (handler "POST" { phoneNumber := some "+919876543210" } envEx
        ⟨erpEx, ⟨.conflict409, .exn, true⟩⟩ 7).1 =
    (handler "POST" { phoneNumber := some "+919876543210" } envEx
        ⟨erpEx, novuEx⟩ 7).1 ∧
    (jsTruthy (some "HR-EMP-001") = true ∧ jsTruthy (some "nk") = true) ∧
    createOrUpdateNovuSubscriber "HR-EMP-001" (some "nk")
        ⟨.conflict409, .ok, false⟩ =
      [.novuCreateReq .alreadyExists, .novuUpdateReq true] := by
  refine ⟨c3_novu_failures_never_change_response.1 "POST"
      { phoneNumber := some "+919876543210" } envEx erpEx _ novuEx 7,
    ⟨rfl, rfl⟩, ?_⟩
  have h := c3_novu_failures_never_change_response.2 "HR-EMP-001" (some "nk")
    ⟨.conflict409, .ok, false⟩ rfl rfl rfl
  simpa using h

/-- C9 counterexample: on the input `"919876543210"` (no `+`, bare
country code) the client's normalization additionally strips the
leading `91` — a change beyond the removal of `+91`/`+`/whitespace the
claim describes (`specPhoneNormalize`) — and therefore also disagrees
with the server's normalization, which leaves this input unchanged. -/
theorem c9_counterexample :
    cleanPhoneNumber "919876543210" = some "9876543210" ∧
    serverCleanPhone "919876543210" = "919876543210" ∧
    specPhoneNormalize "919876543210" = "919876543210" ∧
    cleanPhoneNumber "919876543210" ≠ some (specPhoneNormalize "919876543210") ∧
    some (serverCleanPhone "919876543210") ≠ cleanPhoneNumber "919876543210" := by
  refine ⟨by decide, by decide, by decide, by decide, by decide⟩

/-- C9 as amended: the client's normalization strips `+91`, a remaining
leading `+` and all whitespace, and additionally strips a leading bare
`91` when more than ten characters remain; the server strips only the
`+91`/`+` prefixes.  The two (and the spec's description) agree on
every input of the form `+91` followed by a whitespace-free remainder
that does not start with `+` and is not an over-long string starting
with `91`. -/
theorem c9_normalizations_agree_on_plus91 (d : String)
    (hws : d.data.filter (fun c => !isWsChar c) = d.data)
    (hplus : (['+'].isPrefixOf d.data) = false)
    (h91 : ¬ (['9', '1'] <+: d.data ∧ 10 < d.length)) :
    cleanPhoneNumber ("+91" ++ d) = some d ∧
    serverCleanPhone ("+91" ++ d) = d ∧
    specPhoneNormalize ("+91" ++ d) = d := by
  have hdata : ("+91" ++ d).data = '+' :: '9' :: '1' :: d.data := rfl
  have hd3 : dropPre ['+', '9', '1'] ('+' :: '9' :: '1' :: d.data) = d.data := by
    simp [dropPre, List.isPrefixOf]
  have hd1 : dropPre ['+'] d.data = d.data := by
    simp [dropPre, hplus]
  refine ⟨?_, ?_, ?_⟩
  · simp [cleanPhoneNumber, cleanPhoneCore, hdata, hd3, hd1, hws, h91]
  · simp [serverCleanPhone, hdata, hd3, hd1]
  · simp [specPhoneNormalize, hdata, hd3, hd1, hws]

/-- Witness for the amended C9 at the ten-digit remainder of the
concrete scenario number. -/
theorem c9_witness :
    ("9876543210" : String).data.filter (fun c => !isWsChar c) =
      ("9876543210" : String).data ∧
    (cleanPhoneNumber ("+91" ++ "9876543210") = some "9876543210" ∧
     serverCleanPhone ("+91" ++ "9876543210") = "9876543210" ∧
     specPhoneNormalize ("+91" ++ "9876543210") = "9876543210") :=
  ⟨by decide,
   c9_normalizations_agree_on_plus91 "9876543210" (by decide) (by decide)
     (by decide)⟩

/-- Helper: a JS-truthy optional string is present. -/
theorem isSome_of_jsTruthy (x : Option String) (h : jsTruthy x = true) :
    x.isSome = true := by
  cases x with
  | none => simp [jsTruthy] at h
  | some s => rfl

/-- Helper: the pre-response part of a sign-in transition touches only
the phone/provider fields and the storage, never the in-memory
user/token pair. -/
theorem prefetch_preserves_user_token (c : ClientFull) (fu : FirebaseUser) :
    ((prefetch c fu).1).mem.user = c.mem.user ∧
    ((prefetch c fu).1).mem.token = c.mem.token := by
  simp only [prefetch]
  split_ifs <;> simp

/-- Helper: every observer step preserves the alignment "a Session User
is in memory iff a Session Token is": each branch of the source either
sets both, clears both, or touches neither. -/
theorem step_preserves_user_token_alignment (o : Observer) (e : Ev)
    (h : (o.client.mem.user).isSome = (o.client.mem.token).isSome) :
    (((step o e).client.mem.user)).isSome =
    (((step o e).client.mem.token)).isSome := by
  cases e with
  | notify fu =>
    by_cases hg : o.guard
    · simpa [step, hg] using h
    · cases fu with
      | none => simp [step, hg, processSignedOut]
      | some u =>
        have hp := prefetch_preserves_user_token o.client u
        simp [step, hg, hp.1, hp.2, h]
  | resolve r rnd =>
    cases hp : o.pending with
    | none => simpa [step, hp] using h
    | some p =>
      cases r <;> simp [step, hp, completeOk, completeFail, completeExn]
  | loginEv u t => simp [step, login]
  | logoutEv => simp [step, logout]
  | refreshEv =>
    simp only [step]
    unfold loadAuthFromStorage
    by_cases h3 : jsTruthy o.client.storage.erpnextAuthToken = true ∧
        o.client.storage.erpnextUser.isSome = true ∧
        o.client.storage.authType = some "erpnext"
    · have ht : (o.client.storage.erpnextAuthToken).isSome = true :=
        isSome_of_jsTruthy _ h3.1
      have hu : (o.client.storage.erpnextUser).isSome = true := h3.2.1
      split_ifs <;> simp_all
    · split_ifs <;> simp_all

/-- C1 counterexample: from a page load whose persistent storage still
holds a token, a serialized user and the `erpnext` auth-type marker,
a single `refreshAuth`/`loadAuthFromStorage` call materializes a
Session User although the identity provider reports no signed-in
principal (no sign-in notification was ever processed); likewise a
single manual `login(user, token)` call does.  This refutes the
claimed "only if the provider reports a signed-in principal" direction
for both entry points named by the claim. -/
theorem c1_counterexample :
    ((runObs (initObs s0ex) [Ev.refreshEv]).client.mem.user).isSome = true ∧
    (runObs (initObs s0ex) [Ev.refreshEv]).provider = none ∧
    ((runObs (initObs {}) [Ev.loginEv userEx "tok1"]).client.mem.user).isSome
      = true ∧
    (runObs (initObs {}) [Ev.loginEv userEx "tok1"]).provider = none := by
  refine ⟨by decide, by decide, by decide, by decide⟩

/-- C1 as amended: in every reachable state of the client auth context
(any event sequence from a page load over any persisted storage), a
Session User is in memory iff a Session Token is — but presence of the
pair does not imply the identity provider reports a signed-in
principal, since `loadAuthFromStorage` and `login` establish it without
consulting provider state. -/
theorem c1_user_iff_token_invariant (s : Storage) (evs : List Ev) :
    ((runObs (initObs s) evs).client.mem.user).isSome =
    ((runObs (initObs s) evs).client.mem.token).isSome := by
  suffices h : ∀ (o : Observer),
      (o.client.mem.user).isSome = (o.client.mem.token).isSome →
      ((runObs o evs).client.mem.user).isSome =
      ((runObs o evs).client.mem.token).isSome by
    exact h (initObs s) rfl
  induction evs with
  | nil => exact fun o h => h
  | cons e es ih =>
    exact fun o h => ih (step o e) (step_preserves_user_token_alignment o e h)

/-- C2 counterexample: after a successful resolution all nine documented
keys are indeed set, but after a subsequent `logout()` they are not all
absent — the auth-type marker (and the avatar and initial) survive,
because `logout` removes only six keys. -/
theorem c2_counterexample :
    allNineSet ((runObs (initObs {}) evsSuccessEx).client.storage) = true ∧
    allNineAbsent
      ((runObs (initObs {}) (evsSuccessEx ++ [Ev.logoutEv])).client.storage)
      = false ∧
    (runObs (initObs {}) (evsSuccessEx ++ [Ev.logoutEv])).client.storage.authType
      = some "erpnext" := by
  refine ⟨by decide, by decide, by decide⟩

/-- C2 as amended: after every successful resolution all nine documented
keys are set; but `logout()` clears only the session token, serialized
user, phone number, auth-provider tag, employee identifier and role
identifier, leaving the auth-type marker, avatar and initial untouched;
and an access-denied (403) completion clears only the session token,
serialized user, employee identifier and role identifier, leaving the
other five untouched. -/
theorem c2_storage_roundtrip :
    (∀ (c : ClientFull) (p : Pending) (u : UserData) (t : String) (rnd : Nat),
      allNineSet ((completeOk c p u t rnd).storage) = true) ∧
    (∀ c : ClientFull,
      ((logout c).storage.erpnextAuthToken = none ∧
       (logout c).storage.erpnextUser = none ∧
       (logout c).storage.userPhoneNumber = none ∧
       (logout c).storage.authProvider = none ∧
       (logout c).storage.employeeId = none ∧
       (logout c).storage.klyRoleId = none) ∧
      (logout c).storage.authType = c.storage.authType ∧
      (logout c).storage.userAvatar = c.storage.userAvatar ∧
      (logout c).storage.userInitial = c.storage.userInitial) ∧
    (∀ c : ClientFull,
      ((completeFail c).storage.erpnextAuthToken = none ∧
       (completeFail c).storage.erpnextUser = none ∧
       (completeFail c).storage.employeeId = none ∧
       (completeFail c).storage.klyRoleId = none) ∧
      (completeFail c).storage.userPhoneNumber = c.storage.userPhoneNumber ∧
      (completeFail c).storage.authProvider = c.storage.authProvider ∧
      (completeFail c).storage.authType = c.storage.authType ∧
      (completeFail c).storage.userAvatar = c.storage.userAvatar ∧
      (completeFail c).storage.userInitial = c.storage.userInitial) := by
  refine ⟨fun c p u t rnd => ?_, fun c => ?_, fun c => ?_⟩ <;>
    simp [completeOk, logout, completeFail, allNineSet]

/-- C8: while a transition is being processed (`isProcessingRef` held),
any further provider notification — in particular a "signed out" one —
leaves the observer state exactly unchanged (dropped, not queued); and
when the in-flight sign-in transition then completes with a 200
response, the session holds that transition's user and token, not the
signed-out state, and the guard is released. -/
theorem c8_reentrancy_guard (o : Observer) (p : Pending)
    (fu : Option FirebaseUser) (u : UserData) (t : String) (rnd : Nat)
    (hg : o.guard = true) (hp : o.pending = some p) :
    step o (.notify fu) = o ∧
    (runObs o [Ev.notify none, Ev.resolve (.ok u t) rnd]).client.mem.user
      = some u ∧
    (runObs o [Ev.notify none, Ev.resolve (.ok u t) rnd]).client.mem.token
      = some t ∧
    (runObs o [Ev.notify none, Ev.resolve (.ok u t) rnd]).guard = false := by
  have hdrop : step o (.notify none) = o := by simp [step, hg]
  have hrun : runObs o [Ev.notify none, Ev.resolve (.ok u t) rnd] =
      step o (Ev.resolve (.ok u t) rnd) := by
    simp [runObs, hdrop]
  refine ⟨by simp [step, hg], ?_, ?_, ?_⟩ <;>
    rw [hrun] <;> simp [step, hp, completeOk]

/-- Witness for C8 at the concrete in-flight sign-in state
`oFlightEx`. -/
theorem c8_witness :
    (oFlightEx.guard = true ∧
     oFlightEx.pending = some (prefetch (initObs {}).client fuMsEx).2) ∧
    (step oFlightEx (.notify (some fuMsEx)) = oFlightEx ∧
     (runObs oFlightEx [Ev.notify none, Ev.resolve (.ok userEx "tok2") 0]).client.mem.user
       = some userEx ∧
     (runObs oFlightEx [Ev.notify none, Ev.resolve (.ok userEx "tok2") 0]).client.mem.token
       = some "tok2" ∧
     (runObs oFlightEx [Ev.notify none, Ev.resolve (.ok userEx "tok2") 0]).guard
       = false) :=
  ⟨⟨by decide, by decide⟩,
   c8_reentrancy_guard oFlightEx (prefetch (initObs {}).client fuMsEx).2
     (some fuMsEx) userEx "tok2" 0 (by decide) (by decide)⟩

/-- C10 (implicit): `login(user, token)` writes exactly the session
token, the serialized user and the employee identifier to storage — in
particular it never writes the auth-type marker — and since
`loadAuthFromStorage` restores the in-memory pair only when the stored
auth-type marker equals `erpnext`, a session established solely via
`login()` (auth-type marker not previously `erpnext`) is not restored
into a fresh memory by a subsequent `loadAuthFromStorage`/`refreshAuth`. -/
theorem c10_login_not_restored (c : ClientFull) (u : UserData) (t : String)
    (h : c.storage.authType ≠ some "erpnext") :
    (login c u t).storage = { c.storage with
      erpnextAuthToken := some t
      erpnextUser := some u
      employeeId := some (loginEmployeeId u) } ∧
    (login c u t).storage.authType = c.storage.authType ∧
    (loadAuthFromStorage {} (login c u t).storage).user = none ∧
    (loadAuthFromStorage {} (login c u t).storage).token = none := by
  refine ⟨rfl, rfl, ?_, ?_⟩ <;>
    · simp only [login, loadAuthFromStorage]
      split_ifs <;> simp_all

/-- Witness for C10 at a fresh client whose storage has no auth-type
marker. -/
theorem c10_witness :
    (({ mem := {}, storage := {} } : ClientFull).storage.authType
      ≠ some "erpnext") ∧
    ((login { mem := {}, storage := {} } userEx "tok3").storage =
      { ({} : Storage) with
        erpnextAuthToken := some "tok3"
        erpnextUser := some userEx
        employeeId := some (loginEmployeeId userEx) } ∧
     (login { mem := {}, storage := {} } userEx "tok3").storage.authType
       = ({} : Storage).authType ∧
     (loadAuthFromStorage {}
       (login { mem := {}, storage := {} } userEx "tok3").storage).user
       = none ∧
     (loadAuthFromStorage {}
       (login { mem := {}, storage := {} } userEx "tok3").storage).token
       = none) :=
  ⟨by decide,
   c10_login_not_restored { mem := {}, storage := {} } userEx "tok3"
     (by decide)⟩
